import Mathlib

/-!
Verification development for the BluePyOpt ExpSyn example repository.

The repository consists of the notebook `examples/expsyn/ExpSyn.ipynb` and a
license document listing the third-party biophysical mechanism models.  The
notebook is glue code over the external `bluepyopt` / NEURON stack: it builds
a chain of configuration objects (simulator, morphology, locations,
mechanisms, parameter, cell model, stimulus, recording, protocol, feature,
objective, calculator, evaluator) and then calls the external library.

We embed the configuration objects the notebook constructs, the ordered list
of steps the notebook executes, the recorded outputs stored in the notebook,
and the entries of the license document.  The external library semantics that
are not part of this repository are modelled from the spec where a claim
needs them, and marked as such.
-/

namespace ExpSyn

/-- A location object of `bluepyopt.ephys.locations`, as used by the notebook:
a section-list location, a section-list compartment location, or a
point-process location (which refers to a point-process mechanism by its
name and suffix). -/
inductive Location where
  | nrnSeclist (name : String) (seclist_name : String)
  | nrnSeclistComp (name : String) (seclist_name : String) (sec_index : Nat) (comp_x : ℚ)
  | nrnPointProcess (name : String) (pprocess_mech_name : String) (pprocess_suffix : String)
  deriving DecidableEq

/-- A mechanism of `bluepyopt.ephys.mechanisms`: either a density mechanism
(`NrnMODMechanism`) or a point-process mechanism
(`NrnMODPointProcessMechanism`), each identified by its NMODL suffix. -/
inductive Mechanism where
  | nrnMOD (name : String) (suffix : String) (locations : List Location)
  | nrnMODPointProcess (name : String) (suffix : String) (locations : List Location)
  deriving DecidableEq

/-- The NMODL suffix a mechanism refers to. -/
def Mechanism.suffix : Mechanism → String
  | .nrnMOD _ s _ => s
  | .nrnMODPointProcess _ s _ => s

/-- Whether a mechanism is a point-process mechanism. -/
def Mechanism.isPointProcess : Mechanism → Bool
  | .nrnMOD _ _ _ => false
  | .nrnMODPointProcess _ _ _ => true

/-- `ephys.parameters.NrnPointProcessParameter`: a named, bounded parameter of
a point process. -/
structure NrnPointProcessParameter where
  name : String
  param_name : String
  value : ℚ
  bounds : ℚ × ℚ
  locations : List Location
  deriving DecidableEq

/-- `ephys.morphologies.NrnFileMorphology`: a morphology loaded from a file. -/
structure NrnFileMorphology where
  morphology_path : String
  deriving DecidableEq

/-- `ephys.models.CellModel`: a cell model assembled from a morphology, a list
of mechanisms and a list of parameters. -/
structure CellModel where
  name : String
  morph : NrnFileMorphology
  mechs : List Mechanism
  params : List NrnPointProcessParameter
  deriving DecidableEq

/-- `ephys.stimuli.NrnNetStimStimulus`: a presynaptic spike-train stimulus
delivering `number` events, `interval` ms apart, starting at `start`, over a
sweep of `total_duration` ms. -/
structure NrnNetStimStimulus where
  total_duration : ℚ
  number : Nat
  interval : ℚ
  start : ℚ
  weight : ℚ
  locations : List Location
  deriving DecidableEq

/-- `ephys.recordings.CompRecording`: records the named state variable at a
compartment location.  (The Python constructor argument is `variable`, a
reserved word in Lean, embedded here as `var_name`.) -/
structure CompRecording where
  name : String
  location : Location
  var_name : String
  deriving DecidableEq

/-- `ephys.protocols.SweepProtocol`: a named protocol pairing stimuli with
recordings. -/
structure SweepProtocol where
  name : String
  stimuli : List NrnNetStimStimulus
  recordings : List CompRecording
  deriving DecidableEq

/-- `ephys.efeatures.eFELFeature`: an eFEL feature extracted from a named
recording over the window `[stim_start, stim_end]` and scored against an
experimental mean and standard deviation. -/
structure eFELFeature where
  name : String
  efel_feature_name : String
  recording_names : List (String × String)
  stim_start : ℚ
  stim_end : ℚ
  exp_mean : ℚ
  exp_std : ℚ
  deriving DecidableEq

/-- `ephys.objectives.SingletonObjective`: an objective wrapping a single
feature. -/
structure SingletonObjective where
  name : String
  feature : eFELFeature
  deriving DecidableEq

/-- `ephys.objectivescalculators.ObjectivesCalculator`: the fitness
calculator, a list of objectives. -/
structure ObjectivesCalculator where
  objectives : List SingletonObjective
  deriving DecidableEq

/-- `ephys.simulators.NrnSimulator`: a handle on the external NEURON
simulator engine.  The engine itself is not code of this repository. -/
structure NrnSimulator where
  deriving DecidableEq

/-- `ephys.evaluators.CellEvaluator`: ties the cell model, the optimised
parameter names, the fitness protocols, the fitness calculator and the
simulator together. -/
structure CellEvaluator where
  cell_model : CellModel
  param_names : List String
  fitness_protocols : List (String × SweepProtocol)
  fitness_calculator : ObjectivesCalculator
  sim : NrnSimulator
  deriving DecidableEq

/-- `bluepyopt.optimisations.DEAPOptimisation`: the external evolutionary
optimiser, configured with an evaluator and an offspring size. -/
structure DEAPOptimisation where
  evaluator : CellEvaluator
  offspring_size : Nat
  deriving DecidableEq

/-! ### The concrete objects the notebook constructs, cell by cell. -/

/-- Cell 2 of the notebook: the NEURON simulator object. -/
def nrn_sim : NrnSimulator := ⟨⟩

/-- Cell 2: the single-compartment morphology, loaded from `simple.swc`. -/
def morph : NrnFileMorphology := ⟨"simple.swc"⟩

/-- Cell 2: location pointing to the `somatic` section list. -/
def somatic_loc : Location := .nrnSeclist "somatic" "somatic"

/-- Cell 2: location pointing to the centre of the soma. -/
def somacenter_loc : Location := .nrnSeclistComp "somacenter" "somatic" 0 (1/2)

/-- Cell 3: the passive leak channel mechanism, NMODL suffix `pas`. -/
def pas_mech : Mechanism := .nrnMOD "pas" "pas" [somatic_loc]

/-- Cell 4: the exponential synapse point process, NMODL suffix `ExpSyn`. -/
def expsyn_mech : Mechanism :=
  .nrnMODPointProcess "expsyn" "ExpSyn" [somacenter_loc]

/-- Cell 5: location pointing at the ExpSyn point process. -/
def expsyn_loc : Location := .nrnPointProcess "expsyn_loc" "expsyn" "ExpSyn"

/-- Cell 6: the optimised parameter, the synaptic decay time constant `tau`
of the ExpSyn point process, declared with value 2 and bounds `[0, 50]`. -/
def expsyn_tau_param : NrnPointProcessParameter :=
  { name := "expsyn_tau"
    param_name := "tau"
    value := 2
    bounds := (0, 50)
    locations := [expsyn_loc] }

/-- Cell 7: the cell model assembling morphology, mechanisms and parameter. -/
def cell : CellModel :=
  { name := "simple_cell"
    morph := morph
    mechs := [pas_mech, expsyn_mech]
    params := [expsyn_tau_param] }

/-- Cell 8: start time of the presynaptic spike train. -/
def stim_start : ℚ := 20

/-- Cell 8: the count of presynaptic events. -/
def number : Nat := 5

/-- Cell 8: the interval between presynaptic events. -/
def interval : ℚ := 5

/-- Cell 8: the presynaptic spike-train stimulus. -/
def netstim : NrnNetStimStimulus :=
  { total_duration := 200
    number := 5
    interval := 5
    start := stim_start
    weight := 5/10000
    locations := [expsyn_loc] }

/-- Cell 8: the end of the stimulation window, computed by the notebook as
`stim_start + interval * number`. -/
def stim_end : ℚ := stim_start + interval * (number : ℚ)

/-- Cell 8: the somatic voltage recording. -/
def rec : CompRecording :=
  { name := "soma.v", location := somacenter_loc, var_name := "v" }

/-- Cell 8: the sweep protocol wrapping the NetStim stimulus and the
recording. -/
def protocol : SweepProtocol :=
  { name := "netstim_protocol", stimuli := [netstim], recordings := [rec] }

/-- Cell 9: the eFEL feature targeting the maximum voltage over the
stimulation window, against an experimental mean of -50 mV with a standard
deviation of 0.1 mV. -/
def max_volt_feature : eFELFeature :=
  { name := "maximum_voltage"
    efel_feature_name := "maximum_voltage"
    recording_names := [("", "soma.v")]
    stim_start := stim_start
    stim_end := stim_end
    exp_mean := -50
    exp_std := 1/10 }

/-- Cell 9: the singleton objective wrapping the feature. -/
def max_volt_objective : SingletonObjective :=
  { name := max_volt_feature.name, feature := max_volt_feature }

/-- Cell 9: the fitness calculator over the single objective. -/
def score_calc : ObjectivesCalculator := ⟨[max_volt_objective]⟩

/-- Cell 9: the cell evaluator. -/
def cell_evaluator : CellEvaluator :=
  { cell_model := cell
    param_names := ["expsyn_tau"]
    fitness_protocols := [(protocol.name, protocol)]
    fitness_calculator := score_calc
    sim := nrn_sim }

/-- Cell 10: the hand-tested parameter dictionary. -/
def default_param_values : List (String × ℚ) := [("expsyn_tau", 10)]

/-- Cell 11: the optimisation object handed to the external library. -/
def optimisation : DEAPOptimisation :=
  { evaluator := cell_evaluator, offspring_size := 10 }

/-! ### The notebook as an ordered list of steps.

Each executed statement of the notebook's code cells is one step: a library
import, the construction of a configuration object, a literal assignment, a
derived-expression assignment, a call of a library method (with the argument
names passed), a print, or a plot.  The constructor `defFunction` stands for
a Python function definition authored in the notebook; the notebook contains
none, so it never occurs in `notebookSteps`. -/

/-- One executed statement of the notebook. -/
inductive NotebookStep where
  | importLibs
  | construct (obj : String)
  | assignLiteral (obj : String)
  | assignExpr (obj : String)
  | callMethod (receiver : String) (method : String) (args : List String)
  | defFunction (fname : String)
  | printOutput
  | plot
  deriving DecidableEq

/-- Whether a step is a Python function definition authored in the notebook. -/
def NotebookStep.isFunctionDef : NotebookStep → Bool
  | .defFunction _ => true
  | _ => false

/-- Whether a step performs computation (a library-method invocation or a
function definition), as opposed to glue (imports, object constructions,
assignments, prints, plots). -/
def NotebookStep.isComputational : NotebookStep → Bool
  | .callMethod _ _ _ => true
  | .defFunction _ => true
  | _ => false

/-- The statements of the notebook's code cells, in execution order. -/
def notebookSteps : List NotebookStep :=
  [ .importLibs,
    .construct "nrn_sim",
    .construct "morph",
    .construct "somatic_loc",
    .construct "somacenter_loc",
    .construct "pas_mech",
    .construct "expsyn_mech",
    .construct "expsyn_loc",
    .construct "expsyn_tau_param",
    .construct "cell",
    .assignLiteral "stim_start",
    .assignLiteral "number",
    .assignLiteral "interval",
    .construct "netstim",
    .assignExpr "stim_end",
    .construct "rec",
    .construct "protocol",
    .construct "max_volt_feature",
    .construct "max_volt_objective",
    .construct "score_calc",
    .construct "cell_evaluator",
    .assignLiteral "default_param_values",
    .callMethod "cell_evaluator" "evaluate_with_dicts" ["default_param_values"],
    .printOutput,
    .construct "optimisation",
    .callMethod "optimisation" "run" ["max_ngen=5"],
    .assignExpr "best_ind",
    .printOutput,
    .printOutput,
    .callMethod "cell_evaluator" "param_dict" ["best_ind"],
    .callMethod "protocol" "run" ["cell", "best_ind_dict", "nrn_sim"],
    .assignExpr "time",
    .assignExpr "voltage",
    .plot ]

/-- The five stages of the glue-code pipeline: instantiate the simulator,
assemble the cell model carrying the mechanism files, define the stimulation
protocol, compute the feature-based fitness score, invoke the evolutionary
optimiser. -/
def pipelineStages : List NotebookStep :=
  [ .construct "nrn_sim",
    .construct "cell",
    .construct "protocol",
    .callMethod "cell_evaluator" "evaluate_with_dicts" ["default_param_values"],
    .callMethod "optimisation" "run" ["max_ngen=5"] ]

/-! ### Derived data and recorded outputs. -/

/-- The presynaptic event times a NetStim stimulus produces: `number` events
starting at `start`, spaced `interval` apart. -/
def netStimEventTimes (stim : NrnNetStimStimulus) : List ℚ :=
  (List.range stim.number).map (fun i => stim.start + (i : ℚ) * stim.interval)

/-- The score printed by the notebook for
`evaluate_with_dicts({'expsyn_tau': 10.0})`, stored in the notebook's output
cell: `29.716831912606736`. -/
def recordedScore : ℚ := 29716831912606736 / 10 ^ 15

/-- The dictionary printed by the notebook's evaluation cell:
`{'maximum_voltage': 29.716831912606736}`. -/
def recordedEvaluateOutput : List (String × ℚ) := [("maximum_voltage", recordedScore)]

/-- The best individual printed by the notebook after the optimisation run,
`hall_of_fame[0] = [14.03202650928813]`. -/
def recordedBestIndividual : List ℚ := [1403202650928813 / 10 ^ 14]

/-! ### Library semantics modelled from the spec.

The fitness computation and the evolutionary search live in the external
bluepyopt library and the NEURON engine, which are not code of this
repository; the spec describes them as computing a feature-based fitness
score and running an evolutionary parameter search.  We model only the
interfaces the claims need. -/

/-- Modelled from the spec: the deviation score of an eFEL feature, the
distance of the extracted feature value from the experimental mean in units
of the experimental standard deviation.  Missing from src: the eFEL library
and `bluepyopt.ephys.efeatures.eFELFeature.calculate_score`. -/
def featureScore (f : eFELFeature) (featValue : ℚ) : ℚ :=
  |featValue - f.exp_mean| / f.exp_std

/-- Modelled from the spec: `CellEvaluator.evaluate_with_dicts` runs the
fitness protocols on the external simulator and returns, for each objective
of the fitness calculator, the deviation score of its feature.  The external
simulation pipeline is abstracted as `simFeature`, mapping a parameter
dictionary and an eFEL feature name to the extracted feature value.  Missing
from src: `bluepyopt.ephys.evaluators.CellEvaluator` and the NEURON engine. -/
def evaluate_with_dicts (ev : CellEvaluator)
    (simFeature : List (String × ℚ) → String → ℚ)
    (param_dict : List (String × ℚ)) : List (String × ℚ) :=
  ev.fitness_calculator.objectives.map
    (fun ob => (ob.name, featureScore ob.feature (simFeature param_dict ob.feature.efel_feature_name)))

/-- The parameters a cell evaluator optimises: the cell model's parameters
whose names appear in `param_names`. -/
def CellEvaluator.optimisedParams (ev : CellEvaluator) : List NrnPointProcessParameter :=
  ev.cell_model.params.filter (fun p => ev.param_names.contains p.name)

/-- Modelled from the spec: `DEAPOptimisation.run` is supplied by the
external bluepyopt library and searches the declared parameter space; an
individual it produces assigns to each optimised parameter a value within
that parameter's declared bounds.  Missing from src:
`bluepyopt.optimisations.DEAPOptimisation`. -/
def ProducedByDEAPRun (opt : DEAPOptimisation) (ind : List ℚ) : Prop :=
  List.Forall₂ (fun v p => p.bounds.1 ≤ v ∧ v ≤ p.bounds.2)
    ind opt.evaluator.optimisedParams

/-! ### The repository's files and the license document. -/

/-- The NMODL mechanism suffixes defined by files authored in this
repository.  The repository's source files are the ExpSyn notebook and the
license document; no NMODL mechanism file is authored here, so the list is
empty. -/
def mechanismSuffixesAuthoredInRepo : List String := []

/-- Whether a mechanism refers to a pre-existing mechanism (one whose NMODL
suffix is not defined by any file authored in this repository). -/
def Mechanism.preExisting (m : Mechanism) : Bool :=
  !(mechanismSuffixesAuthoredInRepo.contains m.suffix)

/-- The ion species a mechanism model of the license document conducts. -/
inductive Ion where
  | sodium
  | potassium
  | calcium
  | nonspecific
  deriving DecidableEq

/-- One mechanism-model entry of the repository's license document: the
model's name, its description, the ion species involved, whether it
implements ion-channel kinetics (as opposed to intracellular dynamics),
whether it is third-party scientific model code, its authors, its ModelDB
accession number and original URL when recorded, and its journal
publications when recorded. -/
structure LicenseEntry where
  modelName : String
  description : String
  ions : List Ion
  channelKinetics : Bool
  thirdPartyModel : Bool
  authors : List String
  accession : Option Nat
  originalURL : Option String
  publications : List String
  deriving DecidableEq

/-- Entry 1 of the license document: TC_Nap_Et2, persistent sodium current. -/
def TC_Nap_Et2 : LicenseEntry :=
  { modelName := "TC_Nap_Et2"
    description := "persistent sodium current"
    ions := [.sodium]
    channelKinetics := true
    thirdPartyModel := true
    authors := ["Etay Hay", "Shaul Druckmann", "Srikanth Ramaswamy", "James King",
                "Werner Van Geit", "Elisabetta Iavarone"]
    accession := some 139653
    originalURL := some "https://senselab.med.yale.edu/modeldb/ShowModel.cshtml?model=139653&file=/L5bPCmodelsEH/mod/Nap_Et2.mod#tabs-2"
    publications := [] }

/-- Entry 2 of the license document: SK_E2, calcium-activated potassium
current. -/
def SK_E2 : LicenseEntry :=
  { modelName := "SK_E2"
    description := "calcium-activated potassium current"
    ions := [.potassium]
    channelKinetics := true
    thirdPartyModel := true
    authors := ["Etay Hay", "Shaul Druckmann", "Srikanth Ramaswamy", "James King",
                "Werner Van Geit"]
    accession := some 139653
    originalURL := some "https://senselab.med.yale.edu/modeldb/ShowModel.cshtml?model=139653&file=/L5bPCmodelsEH/mod/SK_E2.mod#tabs-2"
    publications := [] }

/-- Entry 3 of the license document: CaDynamics_E2, intracellular calcium
dynamics (a buffering mechanism, not channel kinetics). -/
def CaDynamics_E2 : LicenseEntry :=
  { modelName := "CaDynamics_E2"
    description := "Intracellular calcium dynamics"
    ions := [.calcium]
    channelKinetics := false
    thirdPartyModel := true
    authors := ["Etay Hay", "Shaul Druckmann", "Srikanth Ramaswamy", "James King",
                "Werner Van Geit"]
    accession := some 139653
    originalURL := some "https://senselab.med.yale.edu/modeldb/ShowModel.cshtml?model=139653&file=/L5bPCmodelsEH/mod/CaDynamics_E2.mod#tabs-2"
    publications := [] }

/-- Entry 4 of the license document: TC_ITGHK_Des98, low-threshold calcium
current. -/
def TC_ITGHK_Des98 : LicenseEntry :=
  { modelName := "TC_ITGHK_Des98"
    description := "low-threshold calcium current"
    ions := [.calcium]
    channelKinetics := true
    thirdPartyModel := true
    authors := ["Alain Destexhe"]
    accession := some 279
    originalURL := some "https://senselab.med.yale.edu/ModelDB/ShowModel.cshtml?model=279&file=/dendtc/ITGHK.mod#tabs-2"
    publications := [] }

/-- Entry 5 of the license document: TC_HH, fast Na+ and K+ currents
responsible for action potentials. -/
def TC_HH : LicenseEntry :=
  { modelName := "TC_HH"
    description := "fast Na+ and K+ currents responsible for action potentials"
    ions := [.sodium, .potassium]
    channelKinetics := true
    thirdPartyModel := true
    authors := ["Alain Destexhe", "Elisabetta Iavarone"]
    accession := some 279
    originalURL := some "https://senselab.med.yale.edu/ModelDB/ShowModel.cshtml?model=279&file=/dendtc/hh2.mod#tabs-2"
    publications := [] }

/-- The entry numbered 5 a second time in the license document: TC_iL,
high-threshold calcium current. -/
def TC_iL : LicenseEntry :=
  { modelName := "TC_iL"
    description := "high-threshold calcium current"
    ions := [.calcium]
    channelKinetics := true
    thirdPartyModel := true
    authors := ["Arthur Houweling"]
    accession := some 3808
    originalURL := some "https://senselab.med.yale.edu/modeldb/ShowModel.cshtml?model=3808&file=/MyFirstNEURON/il.mod#tabs-2"
    publications := [] }

/-- Entry 7 of the license document: TC_iA, fast transient potassium
current.  The document records its author and journal publications but no
ModelDB accession number and no original URL. -/
def TC_iA : LicenseEntry :=
  { modelName := "TC_iA"
    description := "fast transient potassium current"
    ions := [.potassium]
    channelKinetics := true
    thirdPartyModel := true
    authors := ["Yimi Amarillo"]
    accession := none
    originalURL := none
    publications := ["Amarillo et al., J Neurophysiol, 2014",
                     "Huguenard and McCormick, J Neurophysiol, 1992"] }

/-- Entry 8 of the license document: TC_Ih_Bud97, Ih current (a
hyperpolarisation-activated mixed cation current).  The document records its
author and journal publications but no ModelDB accession number and no
original URL. -/
def TC_Ih_Bud97 : LicenseEntry :=
  { modelName := "TC_Ih_Bud97"
    description := "Ih current"
    ions := [.nonspecific]
    channelKinetics := true
    thirdPartyModel := true
    authors := ["Elisabetta Iavarone"]
    accession := none
    originalURL := none
    publications := ["Budde et al., J Physiol, 1997",
                     "Huguenard and McCormick, J Neurophysiol, 1992"] }

/-- The mechanism-model entries of the license document, in order. -/
def licenseEntries : List LicenseEntry :=
  [TC_Nap_Et2, SK_E2, CaDynamics_E2, TC_ITGHK_Des98, TC_HH, TC_iL, TC_iA, TC_Ih_Bud97]

/-- Whether an entry implements sodium, potassium or calcium channel
kinetics. -/
def LicenseEntry.implementsNaKCaChannel (e : LicenseEntry) : Bool :=
  e.channelKinetics &&
    (e.ions.contains .sodium || e.ions.contains .potassium || e.ions.contains .calcium)

/-- Whether an entry records authors, a ModelDB accession number and an
original URL. -/
def LicenseEntry.fullyAttributed (e : LicenseEntry) : Bool :=
  !e.authors.isEmpty && e.accession.isSome && e.originalURL.isSome

/-- Modelled from the spec: the morphology file `simple.swc` is not under
src; the spec and the notebook describe the cell as a single compartment, so
we record the compartment count of the morphology file. -/
def simple_swc_compartment_count : Nat := 1

/-! ### Theorems settling the claims. -/

/-- C3: the mechs list of the CellModel is exactly
`[NrnMODMechanism(suffix='pas'), NrnMODPointProcessMechanism(suffix='ExpSyn')]`,
and each of the two mechanisms refers to a pre-existing NMODL mechanism: its
suffix is defined by no file authored in this repository. -/
theorem cell_mechs_are_preexisting :
    cell.mechs = [pas_mech, expsyn_mech] ∧
    pas_mech = .nrnMOD "pas" "pas" [somatic_loc] ∧
    expsyn_mech = .nrnMODPointProcess "expsyn" "ExpSyn" [somacenter_loc] ∧
    cell.mechs.map Mechanism.suffix = ["pas", "ExpSyn"] ∧
    cell.mechs.all Mechanism.preExisting = true :=
  ⟨rfl, rfl, rfl, rfl, rfl⟩

/-- C5: the notebook configures parameter optimisation of a single-neuron
compartmental model: the cell model is built from the morphology loaded from
`simple.swc`, a single compartment, and the optimisation run by
DEAPOptimisation searches exactly the one free parameter `expsyn_tau`. -/
theorem single_compartment_single_parameter :
    morph.morphology_path = "simple.swc" ∧
    cell.morph = morph ∧
    simple_swc_compartment_count = 1 ∧
    cell_evaluator.param_names = ["expsyn_tau"] ∧
    cell_evaluator.param_names.length = 1 ∧
    cell.params.map (fun p => p.name) = ["expsyn_tau"] ∧
    optimisation.evaluator = cell_evaluator :=
  ⟨rfl, rfl, rfl, rfl, rfl, rfl, rfl⟩

/-- C1: the notebook executes the glue-code pipeline in order — construct
the NrnSimulator, assemble the cell model carrying the mechanism files,
define the SweepProtocol wrapping the NrnNetStimStimulus, compute the
feature-based fitness score through the CellEvaluator whose
ObjectivesCalculator holds the single eFELFeature objective, and invoke
DEAPOptimisation.run — and the only computational steps of the whole
notebook are the four library-method calls, so no computational step other
than the pipeline's own fitness evaluation stands between the stages. -/
theorem notebook_executes_glue_pipeline :
    pipelineStages.Sublist notebookSteps ∧
    notebookSteps.filter NotebookStep.isComputational =
      [ .callMethod "cell_evaluator" "evaluate_with_dicts" ["default_param_values"],
        .callMethod "optimisation" "run" ["max_ngen=5"],
        .callMethod "cell_evaluator" "param_dict" ["best_ind"],
        .callMethod "protocol" "run" ["cell", "best_ind_dict", "nrn_sim"] ] ∧
    cell.mechs = [pas_mech, expsyn_mech] ∧
    protocol.stimuli = [netstim] ∧
    protocol.recordings = [rec] ∧
    cell_evaluator.fitness_protocols = [("netstim_protocol", protocol)] ∧
    cell_evaluator.fitness_calculator = score_calc ∧
    score_calc.objectives = [max_volt_objective] ∧
    max_volt_objective.feature = max_volt_feature ∧
    cell_evaluator.sim = nrn_sim ∧
    optimisation.evaluator = cell_evaluator := by
  exact ⟨by decide, by decide, rfl, rfl, rfl, rfl, rfl, rfl, rfl, rfl, rfl⟩

/-- C4: no numerical integration, genetic-algorithm optimiser or simulator
engine is implemented in the notebook: it defines no function of its own
(no step is a function definition), its only computational steps are the
four calls into the external library — the fitness evaluation, the
optimisation run, the parameter-dictionary helper and the protocol run —
and the simulation is delegated to the externally supplied NrnSimulator. -/
theorem no_algorithms_authored_in_notebook :
    notebookSteps.all (fun s => !s.isFunctionDef) = true ∧
    notebookSteps.filter NotebookStep.isComputational =
      [ .callMethod "cell_evaluator" "evaluate_with_dicts" ["default_param_values"],
        .callMethod "optimisation" "run" ["max_ngen=5"],
        .callMethod "cell_evaluator" "param_dict" ["best_ind"],
        .callMethod "protocol" "run" ["cell", "best_ind_dict", "nrn_sim"] ] ∧
    NotebookStep.callMethod "protocol" "run" ["cell", "best_ind_dict", "nrn_sim"]
      ∈ notebookSteps ∧
    NotebookStep.callMethod "optimisation" "run" ["max_ngen=5"] ∈ notebookSteps ∧
    cell_evaluator.sim = nrn_sim := by
  exact ⟨by decide, by decide, by decide, by decide, rfl⟩

/-- C6 counterexample: the license document's entry TC_iA implements
potassium channel kinetics but records neither a ModelDB accession number
nor an original URL, so not every sodium/potassium/calcium channel entry is
recorded with authors, accession number and URL. -/
theorem license_attribution_counterexample :
    TC_iA ∈ licenseEntries ∧
    TC_iA.implementsNaKCaChannel = true ∧
    TC_iA.accession = none ∧
    TC_iA.originalURL = none ∧
    ¬ licenseEntries.all
        (fun e => !e.implementsNaKCaChannel || e.fullyAttributed) = true := by
  decide

/-- C6 amended: every sodium/potassium/calcium channel-kinetics entry of the
license document is third-party scientific model code with its authors
recorded, and each such entry either records a ModelDB accession number and
original URL, or is the entry TC_iA, which is attributed by author and
journal publications only. -/
theorem license_attribution_amended :
    licenseEntries.all
      (fun e => !e.implementsNaKCaChannel ||
        (e.thirdPartyModel && !e.authors.isEmpty &&
          (e.fullyAttributed ||
            (e.modelName == "TC_iA" && !e.publications.isEmpty)))) = true := by
  decide

/-- C7: with stim_start=20, interval=5 and number=5 the notebook's
`stim_end = stim_start + interval * number` evaluates exactly to 45, the
window `[20, 45]` contains all five presynaptic event times 20, 25, 30, 35,
40 produced by the NrnNetStimStimulus, and the window lies entirely within
the stimulus's total_duration of 200. -/
theorem stim_window_contains_all_events :
    stim_end = 45 ∧
    max_volt_feature.stim_start = 20 ∧
    max_volt_feature.stim_end = stim_end ∧
    netStimEventTimes netstim = [20, 25, 30, 35, 40] ∧
    (netStimEventTimes netstim).all
      (fun t => decide ((20:ℚ) ≤ t) && decide (t ≤ 45)) = true ∧
    0 ≤ stim_start ∧
    stim_end ≤ netstim.total_duration := by
  have hend : stim_end = 45 := by norm_num [stim_end, stim_start, interval, number]
  have hlist : netStimEventTimes netstim = [20, 25, 30, 35, 40] := by
    simp [netStimEventTimes, netstim, stim_start, List.range_succ]
    norm_num
  refine ⟨hend, rfl, rfl, hlist, ?_, by norm_num [stim_start], ?_⟩
  · rw [hlist]; decide
  · rw [hend]; norm_num [netstim]

/-- C2: for every parameter dictionary handed to the evaluator, the
modelled `evaluate_with_dicts` returns, for its single objective, the
deviation score of the eFEL feature `maximum_voltage` extracted from the
`soma.v` recording over the window stim_start=20 to stim_end=45, measured
against exp_mean=-50 with exp_std=0.1; and for the input
`{'expsyn_tau': 10.0}` the score recorded in the notebook is
29.716831912606736, which is exactly the deviation score of the extracted
feature value -47.0283168087393264. -/
theorem evaluate_with_dicts_is_feature_deviation_score
    (simFeature : List (String × ℚ) → String → ℚ)
    (param_dict : List (String × ℚ)) :
    evaluate_with_dicts cell_evaluator simFeature param_dict =
      [("maximum_voltage",
        featureScore max_volt_feature (simFeature param_dict "maximum_voltage"))] ∧
    featureScore max_volt_feature (simFeature param_dict "maximum_voltage") =
      |simFeature param_dict "maximum_voltage" - (-50)| / (1/10) ∧
    max_volt_feature.efel_feature_name = "maximum_voltage" ∧
    max_volt_feature.recording_names = [("", "soma.v")] ∧
    max_volt_feature.stim_start = 20 ∧
    max_volt_feature.stim_end = 45 ∧
    max_volt_feature.exp_mean = -50 ∧
    max_volt_feature.exp_std = 1/10 ∧
    default_param_values = [("expsyn_tau", 10)] ∧
    recordedEvaluateOutput = [("maximum_voltage", 29716831912606736 / 10 ^ 15)] ∧
    featureScore max_volt_feature (-470283168087393264 / 10 ^ 16) = recordedScore := by
  refine ⟨rfl, rfl, rfl, rfl, rfl, ?_, rfl, rfl, rfl, rfl, ?_⟩
  · show stim_end = 45
    norm_num [stim_end, stim_start, interval, number]
  · norm_num [featureScore, max_volt_feature, recordedScore]
    rw [abs_of_nonneg (by norm_num)]
    norm_num

/-- C8: for every parameter dictionary handed to the evaluator, the
modelled `evaluate_with_dicts` returns a dictionary whose key list is
exactly the list of objective names of the fitness calculator — the single
name `maximum_voltage` of the one SingletonObjective — and whose value under
that key is a non-negative score. -/
theorem evaluate_with_dicts_keys_and_nonneg
    (simFeature : List (String × ℚ) → String → ℚ)
    (param_dict : List (String × ℚ)) :
    (evaluate_with_dicts cell_evaluator simFeature param_dict).map Prod.fst =
      score_calc.objectives.map SingletonObjective.name ∧
    score_calc.objectives.map SingletonObjective.name = ["maximum_voltage"] ∧
    evaluate_with_dicts cell_evaluator simFeature param_dict =
      [("maximum_voltage",
        featureScore max_volt_feature (simFeature param_dict "maximum_voltage"))] ∧
    0 ≤ featureScore max_volt_feature (simFeature param_dict "maximum_voltage") := by
  refine ⟨rfl, rfl, rfl, ?_⟩
  exact div_nonneg (abs_nonneg _) (by norm_num [featureScore, max_volt_feature])

/-- C9: the single optimised parameter `expsyn_tau` is declared with bounds
`[0, 50]`; its declared value 2 and the hand-tested value 10.0 lie within
those bounds; every individual produced by the modelled DEAPOptimisation run
assigns it a value within those bounds; and the recorded
`hall_of_fame[0] = [14.03202650928813]` is such an individual. -/
theorem expsyn_tau_stays_within_bounds :
    expsyn_tau_param.bounds = (0, 50) ∧
    (expsyn_tau_param.bounds.1 ≤ expsyn_tau_param.value ∧
      expsyn_tau_param.value ≤ expsyn_tau_param.bounds.2) ∧
    ((0:ℚ) ≤ 10 ∧ (10:ℚ) ≤ 50) ∧
    cell_evaluator.optimisedParams = [expsyn_tau_param] ∧
    (∀ ind, ProducedByDEAPRun optimisation ind → ∀ v ∈ ind, 0 ≤ v ∧ v ≤ 50) ∧
    ProducedByDEAPRun optimisation recordedBestIndividual := by
  refine ⟨rfl, by decide, by norm_num, rfl, ?_, ?_⟩
  · intro ind h v hv
    rw [ProducedByDEAPRun] at h
    have hop : optimisation.evaluator.optimisedParams = [expsyn_tau_param] := rfl
    rw [hop] at h
    cases h with
    | cons hrel htail =>
      cases htail
      rw [List.mem_singleton] at hv
      subst hv
      simpa [expsyn_tau_param] using hrel
  · refine List.Forall₂.cons ?_ List.Forall₂.nil
    constructor <;> norm_num [expsyn_tau_param, recordedBestIndividual]

/-- The bound invariant applied at the concrete individual `[2]`, the
declared parameter value: it is produced within the declared search space
and its value lies within `[0, 50]`. -/
theorem expsyn_tau_stays_within_bounds_witness :
    ProducedByDEAPRun optimisation [(2:ℚ)] ∧ ((0:ℚ) ≤ 2 ∧ (2:ℚ) ≤ 50) :=
  have hprod : ProducedByDEAPRun optimisation [(2:ℚ)] :=
    List.Forall₂.cons (by decide) List.Forall₂.nil
  ⟨hprod, expsyn_tau_stays_within_bounds.2.2.2.2.1 [(2:ℚ)] hprod 2 (by simp)⟩

end ExpSyn
